import Mathlib

/-
Verification of `src/agent/client.py`: a one-shot script that sets a
bearer-token environment variable, builds a Bedrock runtime client,
sends one hard-coded `converse` request and prints
`response["output"]["message"]["content"][0]["text"]`.

The script is embedded shallowly: the collaborator (the Bedrock SDK call)
is a parameter producing a decoded JSON response, the script body is a
pure function from the initial environment and the collaborator to an
event trace, a final environment, the standard output and an exit code.
-/

namespace AgentClient

/-- JSON-like values as decoded by the SDK client: strings, lists and
string-keyed dictionaries cover every shape the script touches. -/
inductive JVal where
  | str : String → JVal
  | arr : List JVal → JVal
  | obj : List (String × JVal) → JVal

/-- Python subscripting with a string key: defined only on dictionaries
(`none` models the uncaught KeyError or TypeError). -/
def JVal.getKey : JVal → String → Option JVal
  | .obj kvs, k => (kvs.find? (fun kv => kv.1 == k)).map (fun kv => kv.2)
  | _, _ => none

/-- Python subscripting with a non-negative integer index: on a list it
selects the element, on a string the one-character substring, and on a
dictionary it fails (uncaught KeyError / IndexError / TypeError). -/
def JVal.getIdx : JVal → Nat → Option JVal
  | .arr xs, i => xs.get? i
  | .str s, i => (s.data.get? i).map (fun c => .str (String.mk [c]))
  | _, _ => none

/-- The access path of line 24 of the source:
`response["output"]["message"]["content"][0]["text"]`; `none` models the
uncaught exception raised when any step of the path is absent. -/
def extractText (response : JVal) : Option JVal :=
  (((response.getKey "output").bind (fun v => v.getKey "message")).bind
      (fun v => v.getKey "content")).bind
    (fun v => (v.getIdx 0).bind (fun w => w.getKey "text"))

mutual

/-- Python `repr` of a decoded JSON value: quotes around strings, square
brackets around lists, braces around dictionaries. -/
def pyRepr : JVal → String
  | .str s => "\x27" ++ s ++ "\x27"
  | .arr xs => "[" ++ pyReprList xs ++ "]"
  | .obj kvs => "\x7b" ++ pyReprObj kvs ++ "\x7d"

/-- Comma-separated `repr` of the elements of a list. -/
def pyReprList : List JVal → String
  | [] => ""
  | [v] => pyRepr v
  | v :: vs => pyRepr v ++ ", " ++ pyReprList vs

/-- Comma-separated `repr` of the key-value pairs of a dictionary. -/
def pyReprObj : List (String × JVal) → String
  | [] => ""
  | [kv] => "\x27" ++ kv.1 ++ "\x27: " ++ pyRepr kv.2
  | kv :: kvs => "\x27" ++ kv.1 ++ "\x27: " ++ pyRepr kv.2 ++ ", " ++ pyReprObj kvs

end

/-- What Python `print` renders for a decoded JSON value: a string prints
verbatim, any other value prints as its `repr`. -/
def pyOut : JVal → String
  | .str s => s
  | .arr xs => pyRepr (.arr xs)
  | .obj kvs => pyRepr (.obj kvs)

/-- The environment key assigned on line 5 of the source. -/
def bearerTokenKey : String := "AWS_BEARER_TOKEN_BEDROCK"

/-- The hard-coded placeholder credential assigned on line 5. -/
def apiKeyLiteral : String := "$\x7bapi-key\x7d"

/-- The service name passed to the client constructor. -/
def service_name : String := "bedrock-runtime"

/-- The region passed to the client constructor. -/
def region_name : String := "us-east-1"

/-- The fixed model identifier of line 14. -/
def model_id : String := "us.anthropic.claude-3-5-haiku-20241022-v1:0"

/-- The fixed message list of line 15: one user-role message whose content
is the single literal greeting. -/
def messages : JVal :=
  .arr [.obj [("role", .str "user"),
              ("content", .arr [.obj
                [("text", .str "Hello! Can you tell me about Amazon Bedrock?")]])]]

/-- The payload of one `converse` call: the model identifier and the
message list. -/
structure Request where
  modelId : String
  messages : JVal

/-- The request the script constructs on lines 14-21. -/
def scriptRequest : Request := Request.mk model_id messages

/-- The observable effects of the script, in the order they happen. -/
inductive Event where
  | setEnvVar : String → String → Event
  | createClient : String → String → Event
  | converseCall : Request → Event
  | printOut : String → Event

/-- True exactly on outbound `converse` events. -/
def Event.isConverse : Event → Bool
  | .converseCall _ => true
  | _ => false

/-- The request carried by a `converse` event, if any. -/
def Event.asConverse : Event → Option Request
  | .converseCall r => some r
  | _ => none

/-- True exactly on standard-output events. -/
def Event.isPrintOut : Event → Bool
  | .printOut _ => true
  | _ => false

/-- Assignment into the process environment: the single key is
overwritten, every other key keeps its previous binding. -/
def envSet (env : String → Option String) (k v : String) : String → Option String :=
  fun x => if x = k then some v else env x

/-- The outcome of one run of the script body. -/
structure RunResult where
  events : List Event
  env : String → Option String
  stdout : String
  exitCode : Nat

/-- One execution of the script body.  `collab` is the external Bedrock
collaborator: given the number of outbound calls already issued in this
process and the request, it yields the decoded response.  The body has a
single unconditional path: set the credential, build the client, send the
one request, then print the extracted text; when the access path is
absent the exception is uncaught, so nothing reaches standard output and
the process exits with code 1. -/
def runScriptWith (env0 : String → Option String)
    (collab : Nat → Request → JVal) (n : Nat) : RunResult × Nat :=
  let env1 := envSet env0 bearerTokenKey apiKeyLiteral
  let req := scriptRequest
  let response := collab n req
  let setup := [Event.setEnvVar bearerTokenKey apiKeyLiteral,
                Event.createClient service_name region_name,
                Event.converseCall req]
  match extractText response with
  | some v =>
      (⟨setup ++ [Event.printOut (pyOut v ++ "\n")], env1, pyOut v ++ "\n", 0⟩, n + 1)
  | none =>
      (⟨setup, env1, "", 1⟩, n + 1)

/-- One process run of the script with a call-independent collaborator. -/
def runScript (env0 : String → Option String) (collab : Request → JVal) : RunResult :=
  (runScriptWith env0 (fun _ r => collab r) 0).1

/-- The script body invoked twice inside one process: the second
invocation starts from the environment the first left behind, with the
call counter past the first request. -/
def runTwice (env0 : String → Option String)
    (collab : Nat → Request → JVal) : RunResult × RunResult :=
  let p1 := runScriptWith env0 collab 0
  let p2 := runScriptWith p1.1.env collab p1.2
  (p1.1, p2.1)

/-- The newline character. -/
def newlineChar : Char := Char.ofNat 10

/-- How many newline characters a string holds. -/
def newlineCount (s : String) : Nat := s.data.count newlineChar

/-- A string is exactly one line when it holds exactly one newline and
that newline ends it. -/
def isOneLine (s : String) : Bool :=
  newlineCount s == 1 && s.data.getLast? == some newlineChar

/-- The mock collaborator response of the spec scenario. -/
def mockResponse : JVal :=
  .obj [("output", .obj [("message", .obj [("content",
      .arr [.obj [("text", .str "Bedrock is a managed service.")]])])])]

/-- A well-shaped response whose text field spans two lines. -/
def multilineResponse : JVal :=
  .obj [("output", .obj [("message", .obj [("content",
      .arr [.obj [("text", .str "line one\nline two")]])])])]

/-- A response with extra top-level fields, an extra message field and a
second content block after index 0. -/
def extraFieldsResponse : JVal :=
  .obj [("ResponseMetadata", .obj [("HTTPStatusCode", .str "200")]),
        ("stopReason", .str "end_turn"),
        ("output", .obj [("message", .obj
          [("role", .str "assistant"),
           ("content", .arr [.obj [("text", .str "first block")],
                             .obj [("text", .str "second block")]])])]),
        ("usage", .obj [("inputTokens", .str "21")])]

/-- An environment with a stale binding for the bearer key and one
unrelated binding. -/
def priorEnv : String → Option String :=
  fun k => if k = "AWS_BEARER_TOKEN_BEDROCK" then some "stale-token"
           else if k = "PATH" then some "/usr/bin" else none

/-- The everywhere-empty initial environment. -/
def emptyEnv : String → Option String := fun _ => none

theorem runScriptWith_eq (env0 : String → Option String)
    (collab : Nat → Request → JVal) (n : Nat) :
    runScriptWith env0 collab n =
      (⟨[Event.setEnvVar bearerTokenKey apiKeyLiteral,
         Event.createClient service_name region_name,
         Event.converseCall scriptRequest] ++
          (match extractText (collab n scriptRequest) with
           | some v => [Event.printOut (pyOut v ++ "\n")]
           | none => []),
        envSet env0 bearerTokenKey apiKeyLiteral,
        (match extractText (collab n scriptRequest) with
         | some v => pyOut v ++ "\n"
         | none => ""),
        (match extractText (collab n scriptRequest) with
         | some _ => 0
         | none => 1)⟩, n + 1) := by
  cases hx : extractText (collab n scriptRequest) <;>
    simp [runScriptWith, hx]

/-- C1: when the collaborator response carries a text field at
`output.message.content[0].text`, the script writes exactly that text
followed by one newline to standard output and exits with code 0. -/
theorem extract_prints (env0 : String → Option String)
    (collab : Request → JVal) (s : String)
    (h : extractText (collab scriptRequest) = some (JVal.str s)) :
    (runScript env0 collab).stdout = s ++ "\n" ∧
    (runScript env0 collab).exitCode = 0 := by
  unfold runScript
  rw [runScriptWith_eq]
  simp [h, pyOut]

/-- C1 witness: the spec scenario, where the mock collaborator returns
the Bedrock sentence: stdout is exactly that sentence plus a newline and
the exit code is 0. -/
theorem extract_prints_witness :
    (runScript emptyEnv (fun _ => mockResponse)).stdout =
      "Bedrock is a managed service.\n" ∧
    (runScript emptyEnv (fun _ => mockResponse)).exitCode = 0 :=
  extract_prints emptyEnv (fun _ => mockResponse)
    "Bedrock is a managed service." rfl

/-- C2: when the access path is absent from the collaborator response —
the key output missing, or message missing below it, or content missing
below that, or the content list empty, or the text key missing from the
first block — the exception is uncaught: nothing is printed, the trace
holds no output event, and the exit code is non-zero. -/
theorem missing_path_errors (env0 : String → Option String)
    (collab : Request → JVal)
    (h : (collab scriptRequest).getKey "output" = none ∨
      (∃ o, (collab scriptRequest).getKey "output" = some o ∧
        o.getKey "message" = none) ∨
      (∃ o m, (collab scriptRequest).getKey "output" = some o ∧
        o.getKey "message" = some m ∧ m.getKey "content" = none) ∨
      (∃ o m, (collab scriptRequest).getKey "output" = some o ∧
        o.getKey "message" = some m ∧
        m.getKey "content" = some (JVal.arr [])) ∨
      (∃ o m x xs, (collab scriptRequest).getKey "output" = some o ∧
        o.getKey "message" = some m ∧
        m.getKey "content" = some (JVal.arr (x :: xs)) ∧
        x.getKey "text" = none)) :
    (runScript env0 collab).stdout = "" ∧
    (runScript env0 collab).events.filter Event.isPrintOut = [] ∧
    (runScript env0 collab).exitCode ≠ 0 := by
  have hnone : extractText (collab scriptRequest) = none := by
    rcases h with h1 | ⟨o, h1, h2⟩ | ⟨o, m, h1, h2, h3⟩ |
      ⟨o, m, h1, h2, h3⟩ | ⟨o, m, x, xs, h1, h2, h3, h4⟩
    · simp [extractText, h1]
    · simp [extractText, h1, h2]
    · simp [extractText, h1, h2, h3]
    · simp [extractText, h1, h2, h3, JVal.getIdx]
    · simp [extractText, h1, h2, h3, h4, JVal.getIdx]
  unfold runScript
  rw [runScriptWith_eq]
  simp [hnone, Event.isPrintOut]

/-- C2 witness: a collaborator answering with an empty dictionary lacks
the key output, so the script fails with no output and an exit code
distinct from 0. -/
theorem missing_path_errors_witness :
    (runScript emptyEnv (fun _ => JVal.obj [])).stdout = "" ∧
    (runScript emptyEnv (fun _ => JVal.obj [])).events.filter
      Event.isPrintOut = [] ∧
    (runScript emptyEnv (fun _ => JVal.obj [])).exitCode ≠ 0 :=
  missing_path_errors emptyEnv (fun _ => JVal.obj []) (Or.inl rfl)

/-- C3: on every run, whatever the environment and the collaborator, the
outbound requests of the trace are exactly one request carrying the fixed
model identifier and the single user-role message with the literal
greeting. -/
theorem request_fixed (env0 : String → Option String)
    (collab : Request → JVal) :
    (runScript env0 collab).events.filterMap Event.asConverse =
      [Request.mk "us.anthropic.claude-3-5-haiku-20241022-v1:0"
        (JVal.arr [JVal.obj [("role", JVal.str "user"),
          ("content", JVal.arr [JVal.obj [("text",
            JVal.str "Hello! Can you tell me about Amazon Bedrock?")]])]])] := by
  unfold runScript
  rw [runScriptWith_eq]
  cases hx : extractText (collab scriptRequest) <;>
    simp [hx, Event.asConverse, scriptRequest, model_id, messages]

/-- C4: the trace of every run starts with the environment assignment,
then the client construction, then the converse call, and anything after
those three events is standard output: setup precedes call precedes
print. -/
theorem events_ordered (env0 : String → Option String)
    (collab : Request → JVal) :
    ∃ t, (runScript env0 collab).events =
        Event.setEnvVar bearerTokenKey apiKeyLiteral ::
        Event.createClient service_name region_name ::
        Event.converseCall scriptRequest :: t ∧
      ∀ e ∈ t, ∃ s, e = Event.printOut s := by
  unfold runScript
  rw [runScriptWith_eq]
  cases hx : extractText (collab scriptRequest) with
  | none => exact ⟨[], by simp [hx]⟩
  | some v =>
      refine ⟨[Event.printOut (pyOut v ++ "\n")], by simp [hx], ?_⟩
      intro e he
      simp at he
      exact ⟨pyOut v ++ "\n", he⟩

/-- C5: every run sends exactly one converse request — never zero, never
two — and the request sent is the once-constructed script request,
unchanged. -/
theorem converse_once (env0 : String → Option String)
    (collab : Request → JVal) :
    ((runScript env0 collab).events.filter Event.isConverse).length = 1 ∧
    (runScript env0 collab).events.filterMap Event.asConverse =
      [scriptRequest] := by
  unfold runScript
  rw [runScriptWith_eq]
  cases hx : extractText (collab scriptRequest) <;>
    simp [hx, Event.isConverse, Event.asConverse]

/-- C6 counterexample: the claim that standard output is a single line
for every possible value of the text field fails: when the collaborator
text itself holds a newline, the run succeeds yet its standard output
holds two newlines, hence is not one line. -/
theorem one_line_counterexample :
    (runScript emptyEnv (fun _ => multilineResponse)).exitCode = 0 ∧
    newlineCount (runScript emptyEnv (fun _ => multilineResponse)).stdout = 2 ∧
    isOneLine (runScript emptyEnv (fun _ => multilineResponse)).stdout = false := by
  refine ⟨rfl, ?_, ?_⟩ <;> decide

/-- C6 amended: on every successful run the standard output is the
extracted text followed by one newline, and whenever that text itself
holds no newline the total standard output is exactly one line. -/
theorem one_line_amended (env0 : String → Option String)
    (collab : Request → JVal) (s : String)
    (h : extractText (collab scriptRequest) = some (JVal.str s)) :
    (runScript env0 collab).stdout = s ++ "\n" ∧
    (newlineCount s = 0 → isOneLine (runScript env0 collab).stdout = true) := by
  unfold runScript
  rw [runScriptWith_eq]
  simp only [h]
  refine ⟨rfl, fun hs => ?_⟩
  show isOneLine (s ++ "\n") = true
  have hd : (s ++ "\n").data = s.data ++ [newlineChar] := by
    rw [String.data_append]
    rfl
  have h0 : s.data.count newlineChar = 0 := hs
  simp [isOneLine, newlineCount, hd, List.count_append, h0]

/-- C6 amended witness: the mock sentence holds no newline, so that
run's entire standard output is the sentence plus one newline and is one
line. -/
theorem one_line_amended_witness :
    (runScript emptyEnv (fun _ => mockResponse)).stdout =
      "Bedrock is a managed service." ++ "\n" ∧
    isOneLine (runScript emptyEnv (fun _ => mockResponse)).stdout = true :=
  ⟨(one_line_amended emptyEnv (fun _ => mockResponse)
      "Bedrock is a managed service." rfl).1,
   (one_line_amended emptyEnv (fun _ => mockResponse)
      "Bedrock is a managed service." rfl).2 (by decide)⟩

/-- C7: the body invoked twice in one process issues two converse
requests in total, and the second invocation prints whatever the
collaborator answers to the second call — no response of the first call
is reused. -/
theorem twice_two_requests (env0 : String → Option String)
    (collab : Nat → Request → JVal) (s1 s2 : String)
    (h1 : extractText (collab 0 scriptRequest) = some (JVal.str s1))
    (h2 : extractText (collab 1 scriptRequest) = some (JVal.str s2)) :
    (((runTwice env0 collab).1.events ++
        (runTwice env0 collab).2.events).filter Event.isConverse).length = 2 ∧
    (runTwice env0 collab).1.stdout = s1 ++ "\n" ∧
    (runTwice env0 collab).2.stdout = s2 ++ "\n" := by
  unfold runTwice
  simp only [runScriptWith_eq]
  simp [h1, h2, Event.isConverse, pyOut]

/-- C7 witness: a collaborator whose second answer differs from its
first; the doubled run sends two requests and the second output is the
second answer, not a cached copy of the first. -/
theorem twice_two_requests_witness :
    (((runTwice emptyEnv
        (fun i _ => if i = 0 then mockResponse else extraFieldsResponse)).1.events ++
      (runTwice emptyEnv
        (fun i _ => if i = 0 then mockResponse else extraFieldsResponse)).2.events).filter
        Event.isConverse).length = 2 ∧
    (runTwice emptyEnv
      (fun i _ => if i = 0 then mockResponse else extraFieldsResponse)).1.stdout =
        "Bedrock is a managed service." ++ "\n" ∧
    (runTwice emptyEnv
      (fun i _ => if i = 0 then mockResponse else extraFieldsResponse)).2.stdout =
        "first block" ++ "\n" :=
  twice_two_requests emptyEnv
    (fun i _ => if i = 0 then mockResponse else extraFieldsResponse)
    "Bedrock is a managed service." "first block" rfl rfl

/-- C8: in every run the credential placed in the environment is the
hard-coded placeholder literal, independent of the prior environment and
of the collaborator; the literal is non-empty, the assignment is the very
first event, and no further check constrains it. -/
theorem credential_literal (env0 : String → Option String)
    (collab : Request → JVal) :
    (runScript env0 collab).env bearerTokenKey = some apiKeyLiteral ∧
    apiKeyLiteral = "$\x7bapi-key\x7d" ∧
    apiKeyLiteral ≠ "" ∧
    (runScript env0 collab).events.head? =
      some (Event.setEnvVar bearerTokenKey apiKeyLiteral) := by
  unfold runScript
  rw [runScriptWith_eq]
  refine ⟨by simp [envSet], rfl, by decide, ?_⟩
  cases hx : extractText (collab scriptRequest) <;> simp [hx]

/-- C9: the only environment key the run mutates is the bearer-token
key: any other key keeps its initial binding, while the bearer-token key
is unconditionally overwritten with the placeholder literal. -/
theorem env_frame (env0 : String → Option String)
    (collab : Request → JVal) (k : String) (hk : k ≠ bearerTokenKey) :
    (runScript env0 collab).env k = env0 k ∧
    (runScript env0 collab).env bearerTokenKey = some apiKeyLiteral := by
  unfold runScript
  rw [runScriptWith_eq]
  exact ⟨by simp [envSet, hk], by simp [envSet]⟩

/-- C9 witness: starting from an environment holding a stale token and a
PATH binding, the run leaves PATH untouched and overwrites the stale
token with the placeholder literal. -/
theorem env_frame_witness :
    (runScript priorEnv (fun _ => mockResponse)).env "PATH" = priorEnv "PATH" ∧
    (runScript priorEnv (fun _ => mockResponse)).env bearerTokenKey =
      some apiKeyLiteral :=
  env_frame priorEnv (fun _ => mockResponse) "PATH" (by decide)

/-- C10: the extraction touches only the keys output, message, content,
the element at index 0 and the key text: every response in which those
lookups yield a first content block with a text field extracts that text
field, whatever else the response holds — later content blocks and extra
fields included. -/
theorem extraction_shape (r o m x v : JVal) (xs : List JVal)
    (h1 : r.getKey "output" = some o)
    (h2 : o.getKey "message" = some m)
    (h3 : m.getKey "content" = some (JVal.arr (x :: xs)))
    (h4 : x.getKey "text" = some v) :
    extractText r = some v := by
  simp [extractText, h1, h2, h3, JVal.getIdx, h4]

/-- C10 witness: a response with extra top-level fields, an extra role
field beside the message content, and a second content block still
extracts the first block text. -/
theorem extraction_shape_witness :
    extractText extraFieldsResponse = some (JVal.str "first block") :=
  extraction_shape extraFieldsResponse
    (JVal.obj [("message", JVal.obj
      [("role", JVal.str "assistant"),
       ("content", JVal.arr [JVal.obj [("text", JVal.str "first block")],
                             JVal.obj [("text", JVal.str "second block")]])])])
    (JVal.obj [("role", JVal.str "assistant"),
       ("content", JVal.arr [JVal.obj [("text", JVal.str "first block")],
                             JVal.obj [("text", JVal.str "second block")]])])
    (JVal.obj [("text", JVal.str "first block")])
    (JVal.str "first block")
    [JVal.obj [("text", JVal.str "second block")]]
    rfl rfl rfl rfl

end AgentClient
